import Mathlib

/-!
Shallow embedding of the anomaly-detection pipeline of this repository:
`lab9.py` (per-frame detection loop: rule evaluation, per-detection log
lines, snapshot + CSV evidence writing) and `log_analysis.py` (offline
aggregator over the structured CSV log).

Python strings are modelled as Lean `String`, Python ints as `Int`
(counts, which are produced by counting, as `Nat`), Python dicts and
`collections.Counter` as association lists with unique keys, exceptions
as explicit `Option`/success flags.  Floating-point confidence rendering
(`f"{conf:.1f}"`) is abstracted: each detection carries the already
rendered percent string.
-/

namespace Lab9

/-- Model of Python `str.split(sep)` for a one-character separator,
at the character-list level.  `"".split(";') = [""]`, and separators at
the ends produce empty segments, exactly as in Python. -/
def splitSepList (sep : Char) : List Char → List (List Char)
  | [] => [[]]
  | c :: cs =>
    if c = sep then [] :: splitSepList sep cs
    else
      match splitSepList sep cs with
      | [] => [[c]]
      | p :: ps => (c :: p) :: ps

/-- Model of Python `str.split(sep)` for a one-character separator. -/
def pySplit (sep : Char) (s : String) : List String :=
  (splitSepList sep s.data).map (fun l => ⟨l⟩)

/-- Model of Python `sep.join(parts)`. -/
def pyJoin (sep : String) : List String → String
  | [] => ""
  | [x] => x
  | x :: y :: xs => x ++ sep ++ pyJoin sep (y :: xs)

/-- Value of a most-significant-first digit character list. -/
def digitsVal (cs : List Char) : Nat :=
  cs.foldl (fun a c => 10 * a + (c.toNat - 48)) 0

/-- A nonempty all-decimal-digit character list parses to its value;
anything else fails. -/
def digitsVal? (cs : List Char) : Option Nat :=
  if cs ≠ [] ∧ cs.all Char.isDigit then some (digitsVal cs) else none

/-- Decimal digit characters of `n`, most significant first, with
explicit fuel (`n` itself always suffices since `n < 10 ^ (n + 1)`). -/
def natDigitsAux : Nat → Nat → List Char
  | 0, _ => []
  | fuel + 1, n =>
    if n < 10 then [Nat.digitChar n]
    else natDigitsAux fuel (n / 10) ++ [Nat.digitChar (n % 10)]

/-- Model of Python `str(n)` for a non-negative integer. -/
def natRepr (n : Nat) : String :=
  ⟨natDigitsAux (n + 1) n⟩

/-- Model of Python `str(i)` / `f"{i}"` for an integer. -/
def intRepr (i : Int) : String :=
  if i < 0 then "-" ++ natRepr i.natAbs else natRepr i.natAbs

/-- ASCII whitespace accepted (and stripped) by Python `int(str)`. -/
def isPyWs (c : Char) : Bool :=
  c.toNat = 32 || (9 ≤ c.toNat && c.toNat ≤ 13)

/-- Strip leading and trailing whitespace, as Python `int(str)` does. -/
def pyStripWs (cs : List Char) : List Char :=
  ((cs.dropWhile isPyWs).reverse.dropWhile isPyWs).reverse

/-- Model of Python `int(str)`: optional surrounding whitespace, an
optional single sign, then one or more decimal digits (digit-grouping
underscores are not modelled; no row produced by the pipeline contains
them). Raising `ValueError` is modelled as `none`. -/
def pyInt? (s : String) : Option Int :=
  match pyStripWs s.data with
  | [] => none
  | c :: rest =>
    if c = '-' then (digitsVal? rest).map (fun n => -(n : Int))
    else if c = '+' then (digitsVal? rest).map (fun n => (n : Int))
    else (digitsVal? (c :: rest)).map (fun n => (n : Int))

/-- Model of Python `str.lower()` (the class descriptions lower-cased by
the loop are ASCII, where `Char.toLower` agrees with Python). -/
def pyLower (s : String) : String :=
  ⟨s.data.map Char.toLower⟩

/-- Zero-pad a number to two digits, as `strftime` field formatting. -/
def pad2 (n : Nat) : String :=
  if n < 10 then "0" ++ natRepr n else natRepr n

/-- Zero-pad a number to four digits, as `strftime` `%Y` formatting. -/
def pad4 (n : Nat) : String :=
  if n < 10 then "000" ++ natRepr n
  else if n < 100 then "00" ++ natRepr n
  else if n < 1000 then "0" ++ natRepr n
  else natRepr n

/-! ## Rule evaluator (`lab9.py` lines 134-146) -/

/-- Configured forbidden-label set, `ANOMALY_SET = {"chair", "cellphone"}`. -/
def ANOMALY_SET : List String := ["chair", "cellphone"]

/-- Configured person cap, `MAX_PERSONS = None` by default. -/
def MAX_PERSONS : Option Int := none

/-- Model of `counts.get(k, 0)` on a Python dict represented as an
association list with unique keys. -/
def lookupCount (counts : List (String × Nat)) (k : String) : Nat :=
  match counts.lookup k with
  | some v => v
  | none => 0

/-- `counts.get("person", 0)`. -/
def personCount (counts : List (String × Nat)) : Nat :=
  lookupCount counts "person"

/-- `bad = sorted(list(present.intersection(ANOMALY_SET)))`: the distinct
present labels that are forbidden, sorted lexicographically ascending. -/
def badLabels (aset : List String) (present : List String) : List String :=
  List.insertionSort (· ≤ ·) ((present.filter (fun l => decide (l ∈ aset))).dedup)

/-- Reason emitted by the forbidden-class rule, `"Detected: " + ", ".join(bad)`. -/
def detectedReason (bad : List String) : String :=
  "Detected: " ++ pyJoin ", " bad

/-- Reason emitted by the count-cap rule. -/
def capReason (cap : Int) (n : Nat) : String :=
  "person_count>" ++ intRepr cap ++ " (=" ++ natRepr n ++ ")"

/-- The `reasons` list: the forbidden-class reason, if it fires, followed
by the count-cap reason, if the cap is configured and it fires. -/
def ruleReasons (aset : List String) (cap : Option Int) (present : List String)
    (counts : List (String × Nat)) : List String :=
  let bad := badLabels aset present
  let r1 : List String := if bad.isEmpty then [] else [detectedReason bad]
  let r2 : List String :=
    match cap with
    | none => []
    | some c =>
      if (personCount counts : Int) > c then [capReason c (personCount counts)] else []
  r1 ++ r2

/-- `is_anomaly = len(reasons) > 0`. -/
def is_anomaly (aset : List String) (cap : Option Int) (present : List String)
    (counts : List (String × Nat)) : Bool :=
  !(ruleReasons aset cap present counts).isEmpty

/-- `reason_txt = " | ".join(reasons) if reasons else "No anomaly classes present"`. -/
def reasonTxt (reasons : List String) : String :=
  if reasons.isEmpty then "No anomaly classes present" else pyJoin " | " reasons

/-! ## Per-frame data (`lab9.py` lines 123-131, 148-157) -/

/-- One detection returned by the backend: the class description string
(before lower-casing) and the already-rendered confidence percent
(abstracting the floating-point `f"{conf:.1f}"` formatting). -/
structure Detection where
  classDesc : String
  confPct : String
deriving DecidableEq

/-- `labels = [net.GetClassDesc(d.ClassID).lower() for d in dets]`. -/
def frameLabels (dets : List Detection) : List String :=
  dets.map (fun d => pyLower d.classDesc)

/-- `counts[L] = counts.get(L, 0) + 1`, dict in insertion order. -/
def dictIncr (c : List (String × Nat)) (k : String) : List (String × Nat) :=
  if c.any (fun kv => kv.1 = k) then
    c.map (fun kv => if kv.1 = k then (kv.1, kv.2 + 1) else kv)
  else c ++ [(k, 1)]

/-- The per-frame `counts` dict, built by the loop over `labels`. -/
def buildCounts (labels : List String) : List (String × Nat) :=
  labels.foldl dictIncr []

/-- The per-frame `present = set(labels)`, represented by the labels list
with duplicates removed (only sorted views and membership are used). -/
def framePresent (dets : List Detection) : List String :=
  (frameLabels dets).dedup

/-- The per-frame `counts` dict. -/
def frameCounts (dets : List Detection) : List (String × Nat) :=
  buildCounts (frameLabels dets)

/-- Whether the frame is judged anomalous by the rule evaluator. -/
def frameAnom (aset : List String) (cap : Option Int) (dets : List Detection) : Bool :=
  is_anomaly aset cap (framePresent dets) (frameCounts dets)

/-- The per-detection flag of lines 152-155: label in the forbidden set,
or the cap is configured, the label is "person" and the cap is exceeded. -/
def labelFlag (aset : List String) (cap : Option Int) (counts : List (String × Nat))
    (label : String) : Bool :=
  decide (label ∈ aset) ||
    (match cap with
     | some c => label == "person" && decide ((personCount counts : Int) > c)
     | none => false)

/-- The human-readable line rendered for one detection (lines 149-157). -/
def detLine (aset : List String) (cap : Option Int) (counts : List (String × Nat))
    (d : Detection) : String :=
  let label := pyLower d.classDesc
  if labelFlag aset cap counts label then
    "ANOMALY: " ++ label ++ " (" ++ d.confPct ++ "%)"
  else
    "Normal : " ++ label ++ " (" ++ d.confPct ++ "%)"

/-! ## Evidence writing (`lab9.py` lines 159-184) -/

/-- One row of `anomaly_log.csv`. -/
structure CsvRow where
  timestamp : String
  reason : String
  labels : String
  counts : String
  snapshot : String
deriving DecidableEq

/-- `";".join(sorted(present))`, the `labels` CSV field. -/
def serLabels (present : List String) : String :=
  pyJoin ";" (List.insertionSort (· ≤ ·) present)

/-- `";".join([f"k:v" for k,v in sorted(counts.items())])`, the `counts`
CSV field: pairs sorted by key (keys are distinct in a dict). -/
def serCounts (counts : List (String × Nat)) : String :=
  pyJoin ";"
    ((List.insertionSort (fun a b : String × Nat => a.1 ≤ b.1) counts).map
      (fun kv => kv.1 ++ ":" ++ natRepr kv.2))

/-- `os.path.join(SNAPSHOT_DIR, f"anomaly_ts.jpg")`. -/
def snapshotName (tsFile : String) : String :=
  "/jetson-inference/data/nandini/anomaly_images/anomaly_" ++ tsFile ++ ".jpg"

/-- Mutable state of the detection loop, plus the externally observable
evidence: the rows appended to the CSV log, the snapshot files written,
and ghost counters of how many times each write was attempted. -/
structure LoopState where
  anomaly_count : Nat
  last_reason : String
  csvRows : List CsvRow
  snapshots : List String
  saveAttempts : Nat
  csvAttempts : Nat
deriving DecidableEq

/-- The initial loop state (lines 110-111). -/
def initState : LoopState :=
  { anomaly_count := 0, last_reason := "—", csvRows := [], snapshots := [],
    saveAttempts := 0, csvAttempts := 0 }

/-- Environment of one loop iteration: the captured frame (or `none`),
the liveness flags, the detections, whether `saveImage` and the CSV
`writerow`/`flush` succeed (exceptions modelled as `false`), and the two
`time.strftime` strings. -/
structure IterEnv where
  img : Option Nat
  cameraStreaming : Bool
  dets : List Detection
  saveOk : Bool
  csvOk : Bool
  tsFile : String
  tsRow : String
  displayStreaming : Bool
deriving DecidableEq

/-- The `if is_anomaly:` block (lines 159-184): increment the counter and
`last_reason`, attempt the snapshot save (on failure the path becomes
empty), then attempt the CSV append with the possibly-emptied path. -/
def evidenceStep (s : LoopState) (anom : Bool) (rtxt : String)
    (present : List String) (counts : List (String × Nat))
    (tsFile tsRow : String) (saveOk csvOk : Bool) : LoopState :=
  if anom then
    let s1 := { s with anomaly_count := s.anomaly_count + 1, last_reason := rtxt }
    let path := snapshotName tsFile
    let s2 := { s1 with saveAttempts := s1.saveAttempts + 1 }
    let s3 := if saveOk then { s2 with snapshots := s2.snapshots ++ [path] } else s2
    let snapPath := if saveOk then path else ""
    let s4 := { s3 with csvAttempts := s3.csvAttempts + 1 }
    if csvOk then
      { s4 with csvRows := s4.csvRows ++
        [⟨tsRow, rtxt, serLabels present, serCounts counts, snapPath⟩] }
    else s4
  else s

/-- Result of one loop iteration: the new state, the human-readable lines
rendered for this frame, and whether the loop breaks. -/
structure IterOut where
  st : LoopState
  lines : List String
  terminated : Bool
deriving DecidableEq

/-- One iteration of the `while True` loop (lines 114-194): capture /
end-of-stream check, detection-derived labels and counts, rule
evaluation, per-detection log lines, conditional evidence writing, and
the display liveness check. -/
def loopIter (aset : List String) (cap : Option Int) (s : LoopState)
    (env : IterEnv) : IterOut :=
  match env.img with
  | none => if env.cameraStreaming then ⟨s, [], false⟩ else ⟨s, [], true⟩
  | some _ =>
    let present := framePresent env.dets
    let counts := frameCounts env.dets
    let reasons := ruleReasons aset cap present counts
    let anom := is_anomaly aset cap present counts
    let rtxt := reasonTxt reasons
    let lines := env.dets.map (detLine aset cap counts)
    let s' := evidenceStep s anom rtxt present counts env.tsFile env.tsRow
      env.saveOk env.csvOk
    ⟨s', lines, !env.displayStreaming⟩

/-! ## Aggregator (`log_analysis.py`) -/

/-- One parsed row of the structured log, as `csv.DictReader` yields it. -/
structure Row where
  timestamp : String
  reason : String
  labels : String
  counts : String
  snapshot : String
deriving DecidableEq

/-- Model of `Counter[k] += v`: update in place if the key is present,
else append a new entry (Counter iteration preserves insertion order). -/
def counterAdd {β : Type} [Add β] (c : List (String × β)) (k : String) (v : β) :
    List (String × β) :=
  if c.any (fun kv => kv.1 = k) then
    c.map (fun kv => if kv.1 = k then (kv.1, kv.2 + v) else kv)
  else c ++ [(k, v)]

/-- Parse the `";"`-split segments of a `counts` field (lines 19-22):
empty segments are skipped (`if not kv: continue`); a non-empty segment
must split on `":"` into exactly two parts (else the tuple unpacking
raises) with an integer second part (else `int` raises). -/
def parseKVs : List String → Option (List (String × Int))
  | [] => some []
  | kv :: rest =>
    if kv = "" then parseKVs rest
    else
      match pySplit ':' kv with
      | [k, v] =>
        match pyInt? v with
        | some n =>
          match parseKVs rest with
          | some tail => some ((k, n) :: tail)
          | none => none
        | none => none
      | _ => none

/-- Parse a whole `counts` field, `row["counts"].split(";")` then the
per-segment logic. -/
def parseCounts (s : String) : Option (List (String × Int)) :=
  parseKVs (pySplit ';' s)

/-- A wall-clock timestamp as `datetime.strptime` produces it. -/
structure DateTime where
  year : Nat
  month : Nat
  day : Nat
  hour : Nat
  minute : Nat
  second : Nat
deriving DecidableEq

/-- February leap rule of the Gregorian calendar. -/
def isLeap (y : Nat) : Bool :=
  (y % 4 == 0 && y % 100 != 0) || y % 400 == 0

/-- Days in a month, used by `datetime`'s date validation. -/
def daysInMonth (y m : Nat) : Nat :=
  if m = 2 then (if isLeap y then 29 else 28)
  else if m = 4 ∨ m = 6 ∨ m = 9 ∨ m = 11 then 30
  else 31

/-- A nonempty all-digit component of at most `w` characters. -/
def digitsAtMost (w : Nat) (s : String) : Option Nat :=
  if s.data.length ≤ w then digitsVal? s.data else none

/-- Model of `datetime.strptime(s, "%Y-%m-%d %H:%M:%S")`: `%Y` matches
exactly four digits with year at least 1; the other fields match one or
two digits; the resulting calendar date and time must be valid (month
1-12, day within the month, hour below 24, minute and second below 60),
else `ValueError` (`none`). -/
def parseTimestamp (s : String) : Option DateTime :=
  match pySplit ' ' s with
  | [d, t] =>
    match pySplit '-' d, pySplit ':' t with
    | [ys, ms, ds], [hs, mins, ss] =>
      match digitsAtMost 4 ys, digitsAtMost 2 ms, digitsAtMost 2 ds,
            digitsAtMost 2 hs, digitsAtMost 2 mins, digitsAtMost 2 ss with
      | some y, some mo, some da, some h, some mi, some se =>
        if ys.data.length = 4 ∧ 1 ≤ y ∧ 1 ≤ mo ∧ mo ≤ 12 ∧ 1 ≤ da ∧
            da ≤ daysInMonth y mo ∧ h ≤ 23 ∧ mi ≤ 59 ∧ se ≤ 59 then
          some ⟨y, mo, da, h, mi, se⟩
        else none
      | _, _, _, _, _, _ => none
    | _, _ => none
  | _ => none

/-- `t.strftime("%Y-%m-%d %H:%M")`, the minute bucket key. -/
def minuteKey (t : DateTime) : String :=
  pad4 t.year ++ "-" ++ pad2 t.month ++ "-" ++ pad2 t.day ++ " " ++
    pad2 t.hour ++ ":" ++ pad2 t.minute

/-- The aggregator's accumulated statistics. -/
structure AggState where
  total_rows : Nat
  reasons : List (String × Nat)
  class_counts : List (String × Int)
  by_minute : List (String × Nat)
deriving DecidableEq

/-- The aggregator's initial state (lines 7-10). -/
def initAgg : AggState :=
  { total_rows := 0, reasons := [], class_counts := [], by_minute := [] }

/-- Processing of one row of the loop body (lines 14-26): count the row
and its reason, parse and accumulate the `counts` field, parse the
timestamp and count its minute bucket.  An unhandled `ValueError`
anywhere aborts the whole run (`none`). -/
def processRow (st : AggState) (row : Row) : Option AggState :=
  let st1 := { st with total_rows := st.total_rows + 1,
                       reasons := counterAdd st.reasons row.reason 1 }
  match parseCounts row.counts with
  | none => none
  | some kvs =>
    let cc := kvs.foldl (fun c kv => counterAdd c kv.1 kv.2) st1.class_counts
    let st2 := { st1 with class_counts := cc }
    match parseTimestamp row.timestamp with
    | none => none
    | some t =>
      some { st2 with by_minute := counterAdd st2.by_minute (minuteKey t) 1 }

/-- The aggregation loop over the data rows. -/
def aggRows (st : AggState) : List Row → Option AggState
  | [] => some st
  | r :: rs =>
    match processRow st r with
    | none => none
    | some st' => aggRows st' rs

/-- A whole aggregator run over the structured log's data rows. -/
def runAgg (rows : List Row) : Option AggState :=
  aggRows initAgg rows

/-! ## Helper lemmas -/

theorem mem_badLabels {aset present : List String} {l : String} :
    l ∈ badLabels aset present ↔ l ∈ present ∧ l ∈ aset := by
  unfold badLabels
  simp [List.mem_insertionSort, List.mem_dedup, List.mem_filter]

theorem badLabels_eq_nil {aset present : List String} :
    badLabels aset present = [] ↔ ¬ ∃ l ∈ present, l ∈ aset := by
  constructor
  · rintro h ⟨l, hl, hla⟩
    have := mem_badLabels.mpr ⟨hl, hla⟩
    rw [h] at this
    exact absurd this (List.not_mem_nil l)
  · intro h
    rw [List.eq_nil_iff_forall_not_mem]
    intro l hl
    exact h ⟨l, (mem_badLabels.mp hl).1, (mem_badLabels.mp hl).2⟩

theorem digit_toNat_bounds {c : Char} (h : c.isDigit = true) :
    48 ≤ c.toNat ∧ c.toNat ≤ 57 := by
  simp [Char.isDigit] at h
  obtain ⟨h1, h2⟩ := h
  have g1 : (48 : UInt32).toNat ≤ c.val.toNat := h1
  have g2 : c.val.toNat ≤ (57 : UInt32).toNat := h2
  exact ⟨g1, g2⟩

theorem digit_not_ws {c : Char} (h : c.isDigit = true) : isPyWs c = false := by
  obtain ⟨h1, h2⟩ := digit_toNat_bounds h
  simp [isPyWs]
  omega

theorem digit_ne {c : Char} (h : c.isDigit = true) :
    c ≠ ';' ∧ c ≠ ':' ∧ c ≠ '-' ∧ c ≠ '+' := by
  refine ⟨?_, ?_, ?_, ?_⟩ <;> rintro rfl <;> exact absurd h (by decide)

theorem digitChar_isDigit {n : Nat} (h : n < 10) :
    (Nat.digitChar n).isDigit = true := by
  interval_cases n <;> decide

theorem digitChar_val {n : Nat} (h : n < 10) :
    (Nat.digitChar n).toNat - 48 = n := by
  interval_cases n <;> decide

theorem digitsVal_append (xs : List Char) (c : Char) :
    digitsVal (xs ++ [c]) = 10 * digitsVal xs + (c.toNat - 48) := by
  unfold digitsVal
  rw [List.foldl_append]
  rfl

theorem natDigitsAux_spec : ∀ (fuel n : Nat), n < 10 ^ (fuel + 1) →
    natDigitsAux (fuel + 1) n ≠ [] ∧
    (natDigitsAux (fuel + 1) n).all Char.isDigit = true ∧
    digitsVal (natDigitsAux (fuel + 1) n) = n
  | 0, n, h => by
    have h10 : n < 10 := by simpa using h
    refine ⟨by simp [natDigitsAux, h10], ?_, ?_⟩
    · simp [natDigitsAux, h10, digitChar_isDigit h10]
    · simp [natDigitsAux, h10, digitsVal, digitChar_val h10]
  | fuel + 1, n, h => by
    by_cases h10 : n < 10
    · refine ⟨by simp [natDigitsAux, h10], ?_, ?_⟩
      · simp [natDigitsAux, h10, digitChar_isDigit h10]
      · simp [natDigitsAux, h10, digitsVal, digitChar_val h10]
    · have hdiv : n / 10 < 10 ^ (fuel + 1) := by
        rw [Nat.div_lt_iff_lt_mul (by norm_num)]
        calc n < 10 ^ (fuel + 1 + 1) := h
          _ = 10 ^ (fuel + 1) * 10 := by ring
      obtain ⟨hne, hall, hval⟩ := natDigitsAux_spec fuel (n / 10) hdiv
      have hmod : n % 10 < 10 := Nat.mod_lt n (by norm_num)
      have heq : natDigitsAux (fuel + 1 + 1) n =
          natDigitsAux (fuel + 1) (n / 10) ++ [Nat.digitChar (n % 10)] := by
        simp [natDigitsAux, h10]
      refine ⟨by simp [heq], ?_, ?_⟩
      · simp [heq, List.all_append, hall, digitChar_isDigit hmod]
      · rw [heq, digitsVal_append, hval, digitChar_val hmod]
        omega

theorem natRepr_spec (n : Nat) :
    (natRepr n).data ≠ [] ∧ (natRepr n).data.all Char.isDigit = true ∧
    digitsVal ((natRepr n).data) = n := by
  have h : n < 10 ^ (n + 1) :=
    lt_of_lt_of_le (Nat.lt_pow_self (by norm_num) n)
      (Nat.pow_le_pow_right (by norm_num) (Nat.le_succ n))
  exact natDigitsAux_spec n n h

theorem dropWhile_no (p : Char → Bool) : ∀ (l : List Char),
    (∀ c ∈ l, p c = false) → l.dropWhile p = l
  | [], _ => rfl
  | c :: cs, h => by
    simp [List.dropWhile_cons, h c (List.mem_cons_self c cs)]

theorem pyStripWs_no_ws {cs : List Char} (h : ∀ c ∈ cs, isPyWs c = false) :
    pyStripWs cs = cs := by
  unfold pyStripWs
  rw [dropWhile_no _ cs h,
    dropWhile_no _ cs.reverse (fun c hc => h c (List.mem_reverse.mp hc))]
  exact List.reverse_reverse cs

theorem digitsVal?_digits {cs : List Char} (hne : cs ≠ [])
    (hall : cs.all Char.isDigit = true) :
    digitsVal? cs = some (digitsVal cs) := by
  unfold digitsVal?
  rw [if_pos ⟨hne, hall⟩]

theorem pyInt_natRepr (n : Nat) : pyInt? (natRepr n) = some (n : Int) := by
  obtain ⟨hne, hall, hval⟩ := natRepr_spec n
  have hnw : ∀ c ∈ (natRepr n).data, isPyWs c = false := fun c hc =>
    digit_not_ws (List.all_eq_true.mp hall c hc)
  unfold pyInt?
  rw [pyStripWs_no_ws hnw]
  rcases hd : (natRepr n).data with _ | ⟨c, rest⟩
  · exact absurd hd hne
  · have hcd : c.isDigit = true :=
      List.all_eq_true.mp hall c (by rw [hd]; exact List.mem_cons_self c rest)
    obtain ⟨_, _, hm, hp⟩ := digit_ne hcd
    rw [hd] at hall hval
    simp only [if_neg hm, if_neg hp, digitsVal?_digits (List.cons_ne_nil c rest) hall,
      Option.map_some', hval]
    simp

theorem splitSepList_no_sep {sep : Char} : ∀ {l : List Char}, sep ∉ l →
    splitSepList sep l = [l]
  | [], _ => rfl
  | c :: cs, h => by
    have hc : ¬ (c = sep) := fun e => h (e ▸ List.mem_cons_self c cs)
    have ht := splitSepList_no_sep (l := cs) (fun m => h (List.mem_cons_of_mem c m))
    simp [splitSepList, hc, ht]

theorem splitSepList_append {sep : Char} : ∀ {p : List Char}, sep ∉ p →
    ∀ (rest : List Char),
    splitSepList sep (p ++ sep :: rest) = p :: splitSepList sep rest
  | [], _, rest => by simp [splitSepList]
  | c :: p, h, rest => by
    have hc : ¬ (c = sep) := fun e => h (e ▸ List.mem_cons_self _ _)
    have ht := splitSepList_append (p := p)
      (fun m => h (List.mem_cons_of_mem c m)) rest
    simp [splitSepList, hc, ht]

theorem pySplit_pyJoin (sep : Char) (sepStr : String) (hs : sepStr.data = [sep]) :
    ∀ (parts : List String), parts ≠ [] → (∀ p ∈ parts, sep ∉ p.data) →
    pySplit sep (pyJoin sepStr parts) = parts
  | [], hne, _ => absurd rfl hne
  | [p], _, hcl => by
    unfold pySplit
    rw [show pyJoin sepStr [p] = p from rfl,
      splitSepList_no_sep (hcl p (List.mem_cons_self p []))]
    rfl
  | p :: q :: ps, _, hcl => by
    have hp : sep ∉ p.data := hcl p (List.mem_cons_self _ _)
    have ih := pySplit_pyJoin sep sepStr hs (q :: ps) (by simp)
      (fun x hx => hcl x (List.mem_cons_of_mem p hx))
    have hdata : (pyJoin sepStr (p :: q :: ps)).data =
        p.data ++ sep :: (pyJoin sepStr (q :: ps)).data := by
      rw [show pyJoin sepStr (p :: q :: ps) =
        p ++ sepStr ++ pyJoin sepStr (q :: ps) from rfl]
      rw [String.data_append, String.data_append, hs]
      simp
    unfold pySplit at ih ⊢
    rw [hdata, splitSepList_append hp, List.map_cons, ih]

theorem segOf_data (k : String) (v : Nat) :
    (k ++ ":" ++ natRepr v).data = k.data ++ ':' :: (natRepr v).data := by
  rw [String.data_append, String.data_append]
  simp

theorem seg_ne_empty (k : String) (v : Nat) : (k ++ ":" ++ natRepr v) ≠ "" := by
  intro h
  have hd := congrArg String.data h
  rw [segOf_data] at hd
  simp at hd

theorem seg_no_semi {k : String} (v : Nat) (hk : ';' ∉ k.data) :
    ';' ∉ (k ++ ":" ++ natRepr v).data := by
  rw [segOf_data]
  intro h
  rcases List.mem_append.mp h with h | h
  · exact hk h
  · rcases List.mem_cons.mp h with h | h
    · exact absurd h (by decide)
    · exact absurd (List.all_eq_true.mp (natRepr_spec v).2.1 _ h) (by decide)

theorem parse_seg (k : String) (v : Nat) (hk : ':' ∉ k.data) :
    pySplit ':' (k ++ ":" ++ natRepr v) = [k, natRepr v] := by
  have hno : ':' ∉ (natRepr v).data := fun h =>
    absurd (List.all_eq_true.mp (natRepr_spec v).2.1 _ h) (by decide)
  unfold pySplit
  rw [segOf_data, splitSepList_append hk, splitSepList_no_sep hno]
  rfl

theorem parseKVs_segs : ∀ (counts : List (String × Nat)),
    (∀ kv ∈ counts, ':' ∉ kv.1.data) →
    parseKVs (counts.map (fun kv => kv.1 ++ ":" ++ natRepr kv.2)) =
      some (counts.map (fun kv => (kv.1, (kv.2 : Int))))
  | [], _ => rfl
  | (k, v) :: rest, h => by
    have hk : ':' ∉ k.data := h (k, v) (List.mem_cons_self _ _)
    have ih := parseKVs_segs rest (fun kv hkv => h kv (List.mem_cons_of_mem _ hkv))
    simp only [List.map_cons]
    rw [parseKVs, if_neg (seg_ne_empty k v), parse_seg k v hk]
    simp only [pyInt_natRepr, ih]

theorem sortPairs_eq {counts : List (String × Nat)}
    (hsort : List.Pairwise (fun a b : String × Nat => a.1 < b.1) counts) :
    List.insertionSort (fun a b : String × Nat => a.1 ≤ b.1) counts = counts :=
  List.Sorted.insertionSort_eq (hsort.imp (fun h => le_of_lt h))

theorem processRow_fails {st : AggState} {row : Row}
    (h : parseCounts row.counts = none ∨ parseTimestamp row.timestamp = none) :
    processRow st row = none := by
  rcases h with h | h
  · simp [processRow, h]
  · rcases hc : parseCounts row.counts with _ | kvs <;> simp [processRow, hc, h]

theorem aggRows_fails : ∀ (st : AggState) (rows : List Row),
    (∃ row ∈ rows, parseCounts row.counts = none ∨
      parseTimestamp row.timestamp = none) →
    aggRows st rows = none
  | _, [], h => absurd h (by simp)
  | st, r :: rs, h => by
    rcases hp : processRow st r with _ | st'
    · simp [aggRows, hp]
    · rcases h with ⟨row, hmem, hbad⟩
      rcases List.mem_cons.mp hmem with rfl | hmem'
      · rw [processRow_fails hbad] at hp
        exact absurd hp (by simp)
      · simp only [aggRows, hp]
        exact aggRows_fails st' rs ⟨row, hmem', hbad⟩

theorem parseKVs_all_empty : ∀ (segs : List String), (∀ s ∈ segs, s = "") →
    parseKVs segs = some []
  | [], _ => rfl
  | s :: rest, h => by
    have hs : s = "" := h s (List.mem_cons_self s rest)
    have ih := parseKVs_all_empty rest (fun x hx => h x (List.mem_cons_of_mem s hx))
    simp [parseKVs, hs, ih]

/-! ## Claim theorems -/

/-- C1: for every set of present labels and every label-to-count map, the
rule evaluation sets `is_anomaly` to true if and only if a present label
is in the anomaly set, or the person cap is configured and the person
count exceeds the cap. -/
theorem c1_is_anomaly_iff (aset : List String) (cap : Option Int)
    (present : List String) (counts : List (String × Nat)) :
    is_anomaly aset cap present counts = true ↔
      ((∃ l ∈ present, l ∈ aset) ∨
        (∃ c, cap = some c ∧ (personCount counts : Int) > c)) := by
  unfold is_anomaly ruleReasons
  by_cases hb : badLabels aset present = [] <;>
    rcases cap with _ | c
  · simp [hb, badLabels_eq_nil.mp hb]
  · by_cases hc : (personCount counts : Int) > c
    · simp [hb, hc, badLabels_eq_nil.mp hb]
    · simp [hb, hc, badLabels_eq_nil.mp hb]
  · have : ∃ l ∈ present, l ∈ aset := by
      by_contra h
      exact hb (badLabels_eq_nil.mpr h)
    simp [List.isEmpty_iff, hb, this]
  · have : ∃ l ∈ present, l ∈ aset := by
      by_contra h
      exact hb (badLabels_eq_nil.mpr h)
    by_cases hc : (personCount counts : Int) > c <;>
      simp [List.isEmpty_iff, hb, hc, this]

/-- C5: the reasons list is deterministic (invariant under reordering of
the detected labels), the forbidden-class reason always precedes the
count-cap reason in the " | "-joined string, and the bad-label list of
the forbidden-class reason is lexicographically sorted ascending. -/
theorem c5_reason_order (aset : List String) (cap : Option Int)
    (present present' : List String) (counts : List (String × Nat))
    (hperm : present.Perm present') :
    List.Sorted (· ≤ ·) (badLabels aset present) ∧
    ruleReasons aset cap present counts = ruleReasons aset cap present' counts ∧
    (∀ c : Int, cap = some c → badLabels aset present ≠ [] →
      (personCount counts : Int) > c →
      reasonTxt (ruleReasons aset cap present counts) =
        detectedReason (badLabels aset present) ++ " | " ++
          capReason c (personCount counts)) := by
  have hbad : badLabels aset present = badLabels aset present' := by
    apply List.eq_of_perm_of_sorted ?_ (List.sorted_insertionSort _ _)
      (List.sorted_insertionSort _ _)
    exact (List.perm_insertionSort _ _).trans
      (((hperm.filter _).dedup).trans (List.perm_insertionSort _ _).symm)
  refine ⟨List.sorted_insertionSort _ _, by simp [ruleReasons, hbad], ?_⟩
  rintro c rfl hb hc
  simp [ruleReasons, reasonTxt, List.isEmpty_iff, hb, hc, pyJoin]

/-- C9: when the key "person" is absent from the counts map, the
count-cap rule reads the person count as 0 (the dict access is total,
never a missing-key failure) and, for any non-negative configured cap,
contributes no reason: the evaluation equals the one with no cap at all. -/
theorem c9_missing_person (aset present : List String)
    (counts : List (String × Nat)) (c : Int)
    (h : counts.lookup "person" = none) (hc : 0 ≤ c) :
    personCount counts = 0 ∧
      ruleReasons aset (some c) present counts =
        ruleReasons aset none present counts := by
  have h0 : personCount counts = 0 := by
    unfold personCount lookupCount
    rw [h]
  refine ⟨h0, ?_⟩
  have hng : ¬ ((personCount counts : Int) > c) := by
    rw [h0]
    push_cast
    omega
  simp [ruleReasons, hng]

/-- Witness for C5 at a concrete input. -/
theorem c5_reason_order_witness :
    (["person", "chair"].Perm ["chair", "person"]) ∧
    (List.Sorted (· ≤ ·) (badLabels ANOMALY_SET ["person", "chair"]) ∧
     ruleReasons ANOMALY_SET (some 3) ["person", "chair"]
         [("person", 4), ("chair", 1)] =
       ruleReasons ANOMALY_SET (some 3) ["chair", "person"]
         [("person", 4), ("chair", 1)] ∧
     (∀ c : Int, (some 3 : Option Int) = some c →
       badLabels ANOMALY_SET ["person", "chair"] ≠ [] →
       (personCount [("person", 4), ("chair", 1)] : Int) > c →
       reasonTxt (ruleReasons ANOMALY_SET (some 3) ["person", "chair"]
           [("person", 4), ("chair", 1)]) =
         detectedReason (badLabels ANOMALY_SET ["person", "chair"]) ++ " | " ++
           capReason c (personCount [("person", 4), ("chair", 1)]))) :=
  ⟨by decide,
   c5_reason_order ANOMALY_SET (some 3) ["person", "chair"] ["chair", "person"]
     [("person", 4), ("chair", 1)] (by decide)⟩

/-- Witness for C9 at a concrete input. -/
theorem c9_missing_person_witness :
    ((List.lookup "person" [("chair", 1)] : Option Nat) = none) ∧
    ((0 : Int) ≤ 3) ∧
    (personCount [("chair", 1)] = 0 ∧
      ruleReasons ANOMALY_SET (some 3) ["chair"] [("chair", 1)] =
        ruleReasons ANOMALY_SET none ["chair"] [("chair", 1)]) :=
  ⟨by decide, by decide,
   c9_missing_person ANOMALY_SET ["chair"] [("chair", 1)] 3 (by decide) (by decide)⟩

/-- C7: if capture yields no frame and the source is no longer live the
iteration terminates the loop; if capture yields no frame while the
source is still live the iteration retries with the state unchanged, no
lines rendered and no evidence written — never treated as end-of-stream. -/
theorem c7_capture_eos (aset : List String) (cap : Option Int) (s : LoopState)
    (env : IterEnv) (h : env.img = none) :
    (env.cameraStreaming = false → loopIter aset cap s env = ⟨s, [], true⟩) ∧
    (env.cameraStreaming = true → loopIter aset cap s env = ⟨s, [], false⟩) := by
  unfold loopIter
  rw [h]
  constructor <;> intro hs <;> simp [hs]

/-- Witness for C7 at concrete inputs (both the end-of-stream case and
the transient-stall case). -/
theorem c7_capture_eos_witness :
    (({ img := none, cameraStreaming := false, dets := [], saveOk := true,
        csvOk := true, tsFile := "", tsRow := "", displayStreaming := true
        : IterEnv }).img = none ∧
      (loopIter ANOMALY_SET MAX_PERSONS initState
        { img := none, cameraStreaming := false, dets := [], saveOk := true,
          csvOk := true, tsFile := "", tsRow := "", displayStreaming := true } =
        ⟨initState, [], true⟩)) ∧
    ((loopIter ANOMALY_SET MAX_PERSONS initState
        { img := none, cameraStreaming := true, dets := [], saveOk := true,
          csvOk := true, tsFile := "", tsRow := "", displayStreaming := true } =
        ⟨initState, [], false⟩)) :=
  ⟨⟨rfl,
    (c7_capture_eos ANOMALY_SET MAX_PERSONS initState _ rfl).1 rfl⟩,
    (c7_capture_eos ANOMALY_SET MAX_PERSONS initState _ rfl).2 rfl⟩

/-- C3: for an anomalous frame the CSV append is attempted exactly once
even when the snapshot save raises; in that case the appended row's
snapshot field is the empty string, and neither the counter increment
nor the append attempt is cancelled by the snapshot failure. -/
theorem c3_snapshot_failure_keeps_row (aset : List String) (cap : Option Int)
    (s : LoopState) (env : IterEnv) (f : Nat) (h : env.img = some f)
    (ha : frameAnom aset cap env.dets = true) (hs : env.saveOk = false) :
    ((loopIter aset cap s env).st.csvAttempts = s.csvAttempts + 1) ∧
    ((loopIter aset cap s env).st.anomaly_count = s.anomaly_count + 1) ∧
    ((loopIter aset cap s env).st.snapshots = s.snapshots) ∧
    (env.csvOk = true →
      (loopIter aset cap s env).st.csvRows = s.csvRows ++
        [⟨env.tsRow,
          reasonTxt (ruleReasons aset cap (framePresent env.dets)
            (frameCounts env.dets)),
          serLabels (framePresent env.dets), serCounts (frameCounts env.dets),
          ""⟩]) := by
  unfold frameAnom at ha
  unfold loopIter
  rw [h]
  cases hcsv : env.csvOk <;>
    simp [evidenceStep, ha, hs, hcsv]

/-- Witness for C3 at a concrete input (anomalous frame, snapshot save
fails, CSV append succeeds). -/
theorem c3_snapshot_failure_keeps_row_witness :
    (({ img := some 0, cameraStreaming := true, dets := [⟨"Chair", "70.0"⟩],
        saveOk := false, csvOk := true, tsFile := "20260101_000000",
        tsRow := "2026-01-01 00:00:00", displayStreaming := true
        : IterEnv }).img = some 0) ∧
    (frameAnom ANOMALY_SET MAX_PERSONS [⟨"Chair", "70.0"⟩] = true) ∧
    ((loopIter ANOMALY_SET MAX_PERSONS initState
      { img := some 0, cameraStreaming := true, dets := [⟨"Chair", "70.0"⟩],
        saveOk := false, csvOk := true, tsFile := "20260101_000000",
        tsRow := "2026-01-01 00:00:00", displayStreaming := true }).st.csvRows =
      [] ++
        [⟨"2026-01-01 00:00:00",
          reasonTxt (ruleReasons ANOMALY_SET MAX_PERSONS
            (framePresent [⟨"Chair", "70.0"⟩])
            (frameCounts [⟨"Chair", "70.0"⟩])),
          serLabels (framePresent [⟨"Chair", "70.0"⟩]),
          serCounts (frameCounts [⟨"Chair", "70.0"⟩]), ""⟩]) :=
  ⟨rfl, by decide,
    (c3_snapshot_failure_keeps_row ANOMALY_SET MAX_PERSONS initState _ 0 rfl
      (by decide) rfl).2.2.2 rfl⟩

/-- C2 counterexample: a frame judged anomalous on which the CSV append
raises appends no structured-log row, so "a row is appended iff the
frame was anomalous" fails as stated on the code. -/
theorem c2_counterexample :
    frameAnom ANOMALY_SET MAX_PERSONS [⟨"Chair", "70.0"⟩] = true ∧
    (loopIter ANOMALY_SET MAX_PERSONS initState
      { img := some 0, cameraStreaming := true, dets := [⟨"Chair", "70.0"⟩],
        saveOk := true, csvOk := false, tsFile := "20260101_000000",
        tsRow := "2026-01-01 00:00:00", displayStreaming := true }).st.csvRows =
      [] := by
  constructor
  · decide
  · rfl

/-- C2 (amended): a structured-log row is appended iff the frame was
judged anomalous and the CSV append succeeded; a snapshot file is
created iff the frame was anomalous and the snapshot save succeeded; and
for a non-anomalous frame the loop state is entirely unchanged (zero
rows, zero snapshots, no attempts). -/
theorem c2_rows_iff_anomaly (aset : List String) (cap : Option Int)
    (s : LoopState) (env : IterEnv) (f : Nat) (h : env.img = some f) :
    ((loopIter aset cap s env).st.csvRows.length = s.csvRows.length +
      (if frameAnom aset cap env.dets && env.csvOk then 1 else 0)) ∧
    ((loopIter aset cap s env).st.snapshots.length = s.snapshots.length +
      (if frameAnom aset cap env.dets && env.saveOk then 1 else 0)) ∧
    (frameAnom aset cap env.dets = false → (loopIter aset cap s env).st = s) := by
  unfold loopIter
  rw [h]
  unfold frameAnom
  by_cases ha : is_anomaly aset cap (framePresent env.dets)
      (frameCounts env.dets) <;>
    cases hcsv : env.csvOk <;> cases hsave : env.saveOk <;>
      simp [evidenceStep, ha, hcsv, hsave]

/-- Witness for the amended C2 at a concrete input. -/
theorem c2_rows_iff_anomaly_witness :
    (({ img := some 0, cameraStreaming := true, dets := [⟨"Chair", "70.0"⟩],
        saveOk := true, csvOk := false, tsFile := "20260101_000000",
        tsRow := "2026-01-01 00:00:00", displayStreaming := true
        : IterEnv }).img = some 0) ∧
    (((loopIter ANOMALY_SET MAX_PERSONS initState
        { img := some 0, cameraStreaming := true, dets := [⟨"Chair", "70.0"⟩],
          saveOk := true, csvOk := false, tsFile := "20260101_000000",
          tsRow := "2026-01-01 00:00:00",
          displayStreaming := true }).st.csvRows.length =
      initState.csvRows.length +
        (if frameAnom ANOMALY_SET MAX_PERSONS [⟨"Chair", "70.0"⟩] &&
            false then 1 else 0)) ∧
    ((loopIter ANOMALY_SET MAX_PERSONS initState
        { img := some 0, cameraStreaming := true, dets := [⟨"Chair", "70.0"⟩],
          saveOk := true, csvOk := false, tsFile := "20260101_000000",
          tsRow := "2026-01-01 00:00:00",
          displayStreaming := true }).st.snapshots.length =
      initState.snapshots.length +
        (if frameAnom ANOMALY_SET MAX_PERSONS [⟨"Chair", "70.0"⟩] &&
            true then 1 else 0)) ∧
    (frameAnom ANOMALY_SET MAX_PERSONS [⟨"Chair", "70.0"⟩] = false →
      (loopIter ANOMALY_SET MAX_PERSONS initState
        { img := some 0, cameraStreaming := true, dets := [⟨"Chair", "70.0"⟩],
          saveOk := true, csvOk := false, tsFile := "20260101_000000",
          tsRow := "2026-01-01 00:00:00", displayStreaming := true }).st =
        initState)) :=
  ⟨rfl, c2_rows_iff_anomaly ANOMALY_SET MAX_PERSONS initState _ 0 rfl⟩

/-- C8 counterexample: the per-detection line for a normal label is
rendered as "Normal : label (xx.x%)" — with a space before the colon —
not "Normal: label (xx.x%)" as the claim states. -/
theorem c8_counterexample :
    (loopIter ANOMALY_SET MAX_PERSONS initState
      { img := some 0, cameraStreaming := true, dets := [⟨"Person", "50.0"⟩],
        saveOk := true, csvOk := true, tsFile := "20260101_000000",
        tsRow := "2026-01-01 00:00:00", displayStreaming := true }).lines =
      ["Normal : person (50.0%)"] ∧
    (["Normal : person (50.0%)"] : List String) ≠ ["Normal: person (50.0%)"] := by
  constructor
  · rfl
  · decide

/-- C8 (amended): for every frame, one human-readable line is rendered
per detection regardless of overall anomaly status; the line reads
"ANOMALY: label (xx.x%)" exactly when the label is in the forbidden set
or the label is "person" while the configured cap is exceeded, and
"Normal : label (xx.x%)" (with a space before the colon) otherwise. -/
theorem c8_per_detection_lines (aset : List String) (cap : Option Int)
    (s : LoopState) (env : IterEnv) (f : Nat) (h : env.img = some f) :
    ((loopIter aset cap s env).lines =
      env.dets.map (detLine aset cap (frameCounts env.dets))) ∧
    (∀ d ∈ env.dets,
      (labelFlag aset cap (frameCounts env.dets) (pyLower d.classDesc) = true ↔
        (pyLower d.classDesc ∈ aset ∨
          ∃ c, cap = some c ∧ pyLower d.classDesc = "person" ∧
            (personCount (frameCounts env.dets) : Int) > c)) ∧
      (labelFlag aset cap (frameCounts env.dets) (pyLower d.classDesc) = true →
        detLine aset cap (frameCounts env.dets) d =
          "ANOMALY: " ++ pyLower d.classDesc ++ " (" ++ d.confPct ++ "%)") ∧
      (labelFlag aset cap (frameCounts env.dets) (pyLower d.classDesc) = false →
        detLine aset cap (frameCounts env.dets) d =
          "Normal : " ++ pyLower d.classDesc ++ " (" ++ d.confPct ++ "%)")) := by
  constructor
  · unfold loopIter
    rw [h]
  · intro d _
    refine ⟨?_, ?_, ?_⟩
    · unfold labelFlag
      rcases cap with _ | c <;> simp
    · intro hf
      simp [detLine, hf]
    · intro hf
      simp [detLine, hf]

/-- Witness for the amended C8 at a concrete input. -/
theorem c8_per_detection_lines_witness :
    (({ img := some 0, cameraStreaming := true, dets := [⟨"Person", "50.0"⟩],
        saveOk := true, csvOk := true, tsFile := "20260101_000000",
        tsRow := "2026-01-01 00:00:00", displayStreaming := true
        : IterEnv }).img = some 0) ∧
    (((loopIter ANOMALY_SET MAX_PERSONS initState
        { img := some 0, cameraStreaming := true, dets := [⟨"Person", "50.0"⟩],
          saveOk := true, csvOk := true, tsFile := "20260101_000000",
          tsRow := "2026-01-01 00:00:00", displayStreaming := true }).lines =
      [⟨"Person", "50.0"⟩].map
        (detLine ANOMALY_SET MAX_PERSONS
          (frameCounts [⟨"Person", "50.0"⟩]))) ∧
    (∀ d ∈ ([⟨"Person", "50.0"⟩] : List Detection),
      (labelFlag ANOMALY_SET MAX_PERSONS (frameCounts [⟨"Person", "50.0"⟩])
          (pyLower d.classDesc) = true ↔
        (pyLower d.classDesc ∈ ANOMALY_SET ∨
          ∃ c, MAX_PERSONS = some c ∧ pyLower d.classDesc = "person" ∧
            (personCount (frameCounts [⟨"Person", "50.0"⟩]) : Int) > c)) ∧
      (labelFlag ANOMALY_SET MAX_PERSONS (frameCounts [⟨"Person", "50.0"⟩])
          (pyLower d.classDesc) = true →
        detLine ANOMALY_SET MAX_PERSONS (frameCounts [⟨"Person", "50.0"⟩]) d =
          "ANOMALY: " ++ pyLower d.classDesc ++ " (" ++ d.confPct ++ "%)") ∧
      (labelFlag ANOMALY_SET MAX_PERSONS (frameCounts [⟨"Person", "50.0"⟩])
          (pyLower d.classDesc) = false →
        detLine ANOMALY_SET MAX_PERSONS (frameCounts [⟨"Person", "50.0"⟩]) d =
          "Normal : " ++ pyLower d.classDesc ++ " (" ++ d.confPct ++ "%)"))) :=
  ⟨rfl, c8_per_detection_lines ANOMALY_SET MAX_PERSONS initState _ 0 rfl⟩

/-- C4: serializing a label-to-count map (labels free of ':' and ';',
keys strictly ascending as the canonical form of a Python dict) as
semicolon-joined "label:count" pairs sorted by label, as the evidence
writer does, and parsing that string back with the aggregator's
split-on-';' / split-on-':' / int conversion logic reproduces the
original map exactly. -/
theorem c4_counts_roundtrip (counts : List (String × Nat))
    (hsort : List.Pairwise (fun a b : String × Nat => a.1 < b.1) counts)
    (hclean : ∀ kv ∈ counts, ':' ∉ kv.1.data ∧ ';' ∉ kv.1.data) :
    parseCounts (serCounts counts) =
      some (counts.map (fun kv => (kv.1, (kv.2 : Int)))) := by
  unfold serCounts parseCounts
  rw [sortPairs_eq hsort]
  rcases counts with _ | ⟨⟨k, v⟩, rest⟩
  · rfl
  · rw [pySplit_pyJoin ';' ";" rfl _ (by simp) ?clean]
    · exact parseKVs_segs _ (fun kv hkv => (hclean kv hkv).1)
    case clean =>
      intro p hp
      obtain ⟨kv, hkv, rfl⟩ := List.mem_map.mp hp
      exact seg_no_semi kv.2 (hclean kv hkv).2

/-- Witness for C4 at a concrete map. -/
theorem c4_counts_roundtrip_witness :
    (List.Pairwise (fun a b : String × Nat => a.1 < b.1)
      [("chair", 1), ("person", 12)]) ∧
    (∀ kv ∈ ([("chair", 1), ("person", 12)] : List (String × Nat)),
      ':' ∉ kv.1.data ∧ ';' ∉ kv.1.data) ∧
    parseCounts (serCounts [("chair", 1), ("person", 12)]) =
      some [("chair", (1 : Int)), ("person", (12 : Int))] :=
  have hpair : List.Pairwise (fun a b : String × Nat => a.1 < b.1)
      [("chair", 1), ("person", 12)] := by
    rw [List.pairwise_cons]
    refine ⟨?_, List.pairwise_singleton _ _⟩
    intro b hb
    rw [List.mem_singleton] at hb
    subst hb
    show ("chair" : String) < "person"
    rw [String.lt_iff_toList_lt]
    decide
  ⟨hpair, by decide,
   c4_counts_roundtrip [("chair", 1), ("person", 12)] hpair (by decide)⟩

/-- C6: a structured-log input containing a row with an unparseable
counts field or an unparseable timestamp makes the aggregator run fail
with a hard error (no report) rather than skipping the row. -/
theorem c6_malformed_fatal (rows : List Row)
    (h : ∃ row ∈ rows, parseCounts row.counts = none ∨
      parseTimestamp row.timestamp = none) :
    runAgg rows = none :=
  aggRows_fails initAgg rows h

/-- Witness for C6: a good row followed by a row whose counts field has a
non-integer count aborts the whole run. -/
theorem c6_malformed_fatal_witness :
    (∃ row ∈ ([⟨"2026-01-01 00:00:00", "ok", "", "person:2", ""⟩,
               ⟨"2026-01-01 00:00:01", "bad", "", "person:x", ""⟩] : List Row),
      parseCounts row.counts = none ∨ parseTimestamp row.timestamp = none) ∧
    runAgg [⟨"2026-01-01 00:00:00", "ok", "", "person:2", ""⟩,
            ⟨"2026-01-01 00:00:01", "bad", "", "person:x", ""⟩] = none :=
  ⟨by decide, c6_malformed_fatal _ (by decide)⟩

/-- C10 counterexample: a counts field that contains an empty
';'-separated segment next to a non-empty one ("person:2;") is not
malformed, but the row does contribute to the label totals, contradicting
the claim that such a row contributes nothing. -/
theorem c10_counterexample :
    ("" ∈ pySplit ';' "person:2;") ∧
    processRow initAgg ⟨"2026-01-01 00:00:00", "r", "", "person:2;", ""⟩ =
      some { total_rows := 1, reasons := [("r", 1)],
             class_counts := [("person", 2)],
             by_minute := [("2026-01-01 00:00", 1)] } ∧
    ([("person", 2)] : List (String × Int)) ≠ initAgg.class_counts := by
  refine ⟨by decide, by decide, by decide⟩

/-- C10 (amended): a row whose counts field consists solely of empty
';'-separated segments (in particular the empty string) is not treated
as malformed: the empty segments are skipped, the row contributes
nothing to the label totals, yet it is still counted in the total row
count and in the reason frequency table. -/
theorem c10_empty_segments_row (st : AggState) (row : Row) (t : DateTime)
    (hseg : ∀ seg ∈ pySplit ';' row.counts, seg = "")
    (ht : parseTimestamp row.timestamp = some t) :
    processRow st row = some
      { total_rows := st.total_rows + 1,
        reasons := counterAdd st.reasons row.reason 1,
        class_counts := st.class_counts,
        by_minute := counterAdd st.by_minute (minuteKey t) 1 } := by
  have hkv : parseCounts row.counts = some [] := parseKVs_all_empty _ hseg
  simp [processRow, hkv, ht]

/-- Witness for the amended C10: a row with an empty counts field. -/
theorem c10_empty_segments_row_witness :
    (∀ seg ∈ pySplit ';' ((⟨"2026-01-01 00:00:00", "r", "", "", ""⟩ : Row).counts),
      seg = "") ∧
    parseTimestamp ((⟨"2026-01-01 00:00:00", "r", "", "", ""⟩ : Row).timestamp) =
      some ⟨2026, 1, 1, 0, 0, 0⟩ ∧
    processRow initAgg ⟨"2026-01-01 00:00:00", "r", "", "", ""⟩ = some
      { total_rows := initAgg.total_rows + 1,
        reasons := counterAdd initAgg.reasons "r" 1,
        class_counts := initAgg.class_counts,
        by_minute := counterAdd initAgg.by_minute
          (minuteKey ⟨2026, 1, 1, 0, 0, 0⟩) 1 } :=
  ⟨by decide, by decide,
   c10_empty_segments_row initAgg ⟨"2026-01-01 00:00:00", "r", "", "", ""⟩
     ⟨2026, 1, 1, 0, 0, 0⟩ (by decide) (by decide)⟩

end Lab9
